import Mathlib

/-!
Verification of the Squabble XMTP agent's message-trigger decision engine.

The repository ships three variants of the bot entry point.  We shallowly embed
the functions the specification talks about:

* variant 1 (src/unnamed/part_001): the conversation-state machine
  (`getConversationState`, `updateConversationState`, `setConversationState`,
  `shouldRespondToMessage`/`handleMessage` with the `/squabble` trigger);
* variant 2 (src/unnamed/part_002): reply handling and context windows
  (`extractMessageContent`, `isReplyToAgent`, `isWithinContextWindow`,
  `trackAgentMessage`, `shouldRespondToMessage`/`handleMessage` with the
  `@squabble` triggers and the TOOL_HANDLED sentinel).

JavaScript values reachable from a decoded message are modelled by `JVal`;
JavaScript string primitives (`toLowerCase`, `trim`, `includes`, the reply
fallback regular expression, `JSON.stringify`, `String(...)`) are modelled by
executable Lean functions over `List Char`.  Timestamps are integers
(milliseconds); each handler run reads a single clock value, reflecting the
source's back-to-back `Date.now()` calls.  Fallible I/O steps (conversation
lookup, agent initialisation, message sends) are driven by explicit oracle
fields; the handler embeddings return the final store, the list of observable
effects in order, and whether an exception escaped the handler.
-/

namespace Squabble

/-- Model of the JavaScript values reachable from a decoded XMTP message:
null, undefined, strings, (integer) numbers, booleans and plain objects. -/
inductive JVal where
  | null : JVal
  | undefined : JVal
  | str : String → JVal
  | num : Int → JVal
  | bool : Bool → JVal
  | obj : List (String × JVal) → JVal

/-- Whether a value is `null` or `undefined` (the `=== null || === undefined`
test of the source). -/
def JVal.isNullOrUndefined : JVal → Bool
  | .null => true
  | .undefined => true
  | _ => false

/-- JavaScript truthiness of a `JVal`. -/
def JVal.truthy : JVal → Bool
  | .null => false
  | .undefined => false
  | .str s => s ≠ ""
  | .num n => n ≠ 0
  | .bool b => b
  | .obj _ => true

/-- Whether `typeof v === "object"` holds in JavaScript (objects and null). -/
def JVal.typeofObject : JVal → Bool
  | .obj _ => true
  | .null => true
  | _ => false

/-- Whether `typeof v === "string"` holds in JavaScript. -/
def JVal.typeofString : JVal → Bool
  | .str _ => true
  | _ => false

/-- Property access `v.k` on a model value; absent fields give `undefined`. -/
def JVal.get (v : JVal) (k : String) : JVal :=
  match v with
  | .obj fs =>
    match fs.find? (fun p => p.1 == k) with
    | some p => p.2
    | none => .undefined
  | _ => .undefined

/-- The JavaScript `String(x)` coercion on model values. -/
def jsToString : JVal → String
  | .null => "null"
  | .undefined => "undefined"
  | .str s => s
  | .num n => toString n
  | .bool b => if b then "true" else "false"
  | .obj _ => "[object Object]"

/-- Escaping of one character inside a JSON string literal. -/
def jsonEscapeChar (c : Char) : String :=
  if c = '"' then "\\\""
  else if c = '\\' then "\\\\"
  else if c = '\n' then "\\n"
  else if c = '\t' then "\\t"
  else if c = '\r' then "\\r"
  else String.mk [c]

/-- Escaping of a whole JSON string literal body. -/
def jsonEscape (s : String) : String :=
  String.join (s.data.map jsonEscapeChar)

mutual

/-- The `JSON.stringify` serialisation of a model value.  A top-level
`undefined` is unreachable at the one call site in `extractMessageContent`
(the source returns `""` for null/undefined content first). -/
def jsonStringify : JVal → String
  | .null => "null"
  | .undefined => "null"
  | .str s => "\"" ++ jsonEscape s ++ "\""
  | .num n => toString n
  | .bool b => if b then "true" else "false"
  | .obj fs => "\x7b" ++ String.intercalate "," (jsonFields fs) ++ "\x7d"

/-- Serialised `"key":value` members of an object; members whose value is
`undefined` are dropped, as `JSON.stringify` does. -/
def jsonFields : List (String × JVal) → List String
  | [] => []
  | (k, v) :: rest =>
    match v with
    | .undefined => jsonFields rest
    | v' => ("\"" ++ jsonEscape k ++ "\":" ++ jsonStringify v') :: jsonFields rest

end

/-- The JavaScript `toLowerCase()` on our string model (character-wise). -/
def jsLower (s : String) : String :=
  String.mk (s.data.map Char.toLower)

/-- Whitespace recognised by the JavaScript `trim()` (ASCII subset, which
covers every string the program manipulates). -/
def isJsWs (c : Char) : Bool :=
  c = ' ' || c = '\t' || c = '\n' || c = '\r' || c = '\x0b' || c = '\x0c'

/-- Trimming of a character list on both ends. -/
def trimChars (l : List Char) : List Char :=
  ((l.dropWhile isJsWs).reverse.dropWhile isJsWs).reverse

/-- The JavaScript `trim()`. -/
def jsTrim (s : String) : String :=
  String.mk (trimChars s.data)

/-- Whether `needle` occurs as a contiguous run inside `hay`
(the JavaScript `hay.includes(needle)` on character lists). -/
def containsSub (needle : List Char) : List Char → Bool
  | [] => needle.isEmpty
  | c :: t => needle.isPrefixOf (c :: t) || containsSub needle t

/-- The JavaScript `s.includes(pat)`. -/
def jsIncludes (s pat : String) : Bool :=
  containsSub pat.data s.data

/-! ### The reply-fallback regular expression

The source matches `fallbackText` against the JavaScript regular expression
`/Replied with "(.+)" to an earlier message/` and uses capture group 1.
We model the engine's semantics for this pattern: leftmost starting position,
greedy `.+` (longest capture of non-line-terminator characters such that the
literal suffix follows). -/

/-- The literal characters before the capture group. -/
def repliedPre : List Char := ("Replied with \"").data

/-- The literal characters after the capture group. -/
def repliedPost : List Char := ("\" to an earlier message").data

/-- Characters matched by `.` in a JavaScript regular expression
(everything except line terminators). -/
def isDotChar (c : Char) : Bool :=
  !(c = '\n' || c = '\r' || c = '\u2028' || c = '\u2029')

/-- Greedy search for the capture length: the largest `k ≤ fuel` such that
the post literal follows the first `k` characters of `rest`. -/
def greedyCapture : Nat → List Char → Option (List Char)
  | 0, _ => none
  | k + 1, rest =>
    if repliedPost.isPrefixOf (rest.drop (k + 1)) then some (rest.take (k + 1))
    else greedyCapture k rest

/-- Attempted match of the reply-fallback pattern at the head of `cs`. -/
def matchReplied (cs : List Char) : Option (List Char) :=
  if repliedPre.isPrefixOf cs then
    let rest := cs.drop repliedPre.length
    greedyCapture (rest.takeWhile isDotChar).length rest
  else none

/-- Leftmost match of the reply-fallback pattern inside `cs`. -/
def findReplied : List Char → Option (List Char)
  | [] => matchReplied []
  | c :: t =>
    match matchReplied (c :: t) with
    | some r => some r
    | none => findReplied t

/-- Capture group 1 of `fallback.match(/Replied with "(.+)" to an earlier
message/)`, when the pattern matches. -/
def repliedMatch (s : String) : Option String :=
  (findReplied s.data).map String.mk

/-! ### Decoded message model -/

/-- Model of an XMTP `DecodedMessage` as the handlers consume it:
the identifier fields, `contentType?.typeId` (absent content type gives
`none`), the decoded `content` value and the extra `fallback` and
`parameters` fields reached through the `as any` casts. -/
structure DecodedMessage where
  id : String
  senderInboxId : String
  conversationId : String
  contentTypeId : Option String
  content : JVal
  fallback : JVal
  parameters : JVal

/-! ### Variant 2 (src/unnamed/part_002): content extraction and triggers -/

/-- Trigger keywords of variant 2. -/
def SQUABBLE_TRIGGERS2 : List String := ["@squabble", "@squabble.base.eth"]

/-- Whether the (already lowercased) text contains one of `triggers`
(case-insensitive substring match, as in the source's
`triggers.some((t) => lower.includes(t.toLowerCase()))`). -/
def hasAnyTrigger (triggers : List String) (lower : String) : Bool :=
  triggers.any (fun t => jsIncludes lower (jsLower t))

/-- `isReplyToAgent` of variants 2 and 0: a message is classified as a reply
to the agent exactly when its content type id is "reply"; the
`agentInboxId` argument is never consulted. -/
def isReplyToAgent (message : DecodedMessage) (agentInboxId : String) : Bool :=
  message.contentTypeId = some "reply"

/-- First extraction stage for a reply: the nested `content`/`text`/`message`
fields of a truthy object-typed reply payload. -/
def extractReplyContentField (replyContent : JVal) : Option String :=
  if replyContent.truthy && replyContent.typeofObject then
    if (replyContent.get "content").truthy then
      some (jsToString (replyContent.get "content"))
    else if (replyContent.get "text").truthy then
      some (jsToString (replyContent.get "text"))
    else if (replyContent.get "message").truthy then
      some (jsToString (replyContent.get "message"))
    else none
  else none

/-- Second extraction stage: a truthy string-typed `fallback` field, from
which the quoted reply text is recovered by the pattern match when possible,
the raw fallback string otherwise. -/
def extractReplyFromFallback (fallback : JVal) : Option String :=
  match fallback with
  | .str fb =>
    if fb = "" then none
    else
      match repliedMatch fb with
      | some cap => some cap
      | none => some fb
  | _ => none

/-- Third extraction stage: the `content`/`text` fields of a truthy
object-typed `parameters` field. -/
def extractReplyFromParams (params : JVal) : Option String :=
  if params.truthy && params.typeofObject then
    if (params.get "content").truthy then
      some (jsToString (params.get "content"))
    else if (params.get "text").truthy then
      some (jsToString (params.get "text"))
    else none
  else none

/-- `extractMessageContent` of variant 2 (src/unnamed/part_002 lines
149-225): reply envelopes run through the staged fallback chain, plain
envelopes coerce their content to text with null/undefined giving "". -/
def extractMessageContent (message : DecodedMessage) : String :=
  if message.contentTypeId = some "reply" then
    match extractReplyContentField message.content with
    | some s => s
    | none =>
      match extractReplyFromFallback message.fallback with
      | some s => s
      | none =>
        match extractReplyFromParams message.parameters with
        | some s => s
        | none =>
          if message.content.isNullOrUndefined then ""
          else jsonStringify message.content
  else
    if message.content.isNullOrUndefined then ""
    else jsToString message.content

/-- A record of the most recent agent message in a conversation. -/
structure AgentMsgRecord where
  timestamp : Int
  messageId : String
deriving Repr, DecidableEq

/-- The `recentAgentMessages` store, keyed by conversation id
(first entry wins, newest entries in front). -/
abbrev RecentStore := List (String × AgentMsgRecord)

/-- Lookup in the `recentAgentMessages` store. -/
def lookupRecent (store : RecentStore) (conversationId : String) :
    Option AgentMsgRecord :=
  (store.find? (fun p => p.1 == conversationId)).map (fun p => p.2)

/-- `CONTEXT_WINDOW_MS` of variant 2: five minutes. -/
def CONTEXT_WINDOW_MS : Int := 5 * 60 * 1000

/-- `trackAgentMessage` of variant 2: record the send time and message id of
the agent's latest message in the conversation. -/
def trackAgentMessage (store : RecentStore) (conversationId messageId : String)
    (now : Int) : RecentStore :=
  (conversationId, ⟨now, messageId⟩) :: store

/-- `isWithinContextWindow` of variant 2: true when the conversation has a
tracked agent message no older than `CONTEXT_WINDOW_MS`. -/
def isWithinContextWindow (store : RecentStore) (conversationId : String)
    (now : Int) : Bool :=
  match lookupRecent store conversationId with
  | none => false
  | some r => now - r.timestamp ≤ CONTEXT_WINDOW_MS

/-- `shouldRespondToMessage` of variant 2 (src/unnamed/part_002 lines
233-276): empty text responds only for replies within the context window;
otherwise reply-to-agent wins, then the context window, then the trigger
keywords. -/
def shouldRespondToMessage2 (message : DecodedMessage) (agentInboxId : String)
    (recent : RecentStore) (now : Int) : Bool :=
  let messageContent := extractMessageContent message
  if jsTrim messageContent = "" then
    if message.contentTypeId = some "reply" then
      isWithinContextWindow recent message.conversationId now
    else false
  else
    let lowerMessage := jsTrim (jsLower messageContent)
    if isReplyToAgent message agentInboxId then true
    else if isWithinContextWindow recent message.conversationId now then true
    else hasAnyTrigger SQUABBLE_TRIGGERS2 lowerMessage

/-- `shouldSendHelpHint` of variant 2: a slash-mention of the bot without a
proper trigger. -/
def shouldSendHelpHint2 (message : String) : Bool :=
  let lowerMessage := jsTrim (jsLower message)
  (["/bot", "/agent", "/ai", "/help"].any (fun m => jsIncludes lowerMessage m))
    && !(hasAnyTrigger SQUABBLE_TRIGGERS2 lowerMessage)

/-! ### Variant 1 (src/unnamed/part_001): conversation-state machine -/

/-- Trigger keywords of variant 1. -/
def SQUABBLE_TRIGGERS1 : List String := ["/squabble"]

/-- `ConversationState` of variant 1. -/
structure ConversationState where
  isWaitingForResponse : Bool
  lastCommand : String
  messageCount : Nat
  lastUpdate : Int
deriving Repr, DecidableEq

/-- The `conversationStates` store, keyed by conversation id
(first entry wins, newest entries in front). -/
abbrev StateStore := List (String × ConversationState)

/-- Lookup in the `conversationStates` store. -/
def lookupState (store : StateStore) (conversationId : String) :
    Option ConversationState :=
  (store.find? (fun p => p.1 == conversationId)).map (fun p => p.2)

/-- `STATE_TIMEOUT` of variant 1: one minute in milliseconds. -/
def STATE_TIMEOUT : Int := 60 * 1000

/-- `MAX_CONTEXT_MESSAGES` of variant 1. -/
def MAX_CONTEXT_MESSAGES : Nat := 5

/-- The fresh default conversation state written on creation and on reset. -/
def freshState (now : Int) : ConversationState :=
  ⟨false, "", 0, now⟩

/-- `getConversationState` of variant 1 (src/unnamed/part_001 lines 89-133):
a read with reset-on-expiry side effect.  Returns the state the caller
observes together with the updated store. -/
def getConversationState (store : StateStore) (conversationId : String)
    (now : Int) : ConversationState × StateStore :=
  match lookupState store conversationId with
  | none =>
    (freshState now, (conversationId, freshState now) :: store)
  | some state =>
    if now - state.lastUpdate > STATE_TIMEOUT then
      (freshState now, (conversationId, freshState now) :: store)
    else if state.messageCount ≥ MAX_CONTEXT_MESSAGES then
      (freshState now, (conversationId, freshState now) :: store)
    else (state, store)

/-- `updateConversationState` of variant 1: overwrite the waiting flag, keep
the last command, bump the turn counter and refresh the timestamp. -/
def updateConversationState (store : StateStore) (conversationId : String)
    (isWaitingForResponse : Bool) (now : Int) : StateStore :=
  let currentState := (lookupState store conversationId).getD (freshState now)
  (conversationId,
    ⟨isWaitingForResponse, currentState.lastCommand,
      currentState.messageCount + 1, now⟩) :: store

/-- `setConversationState` of variant 1: like `updateConversationState` but
also overwriting the stored command. -/
def setConversationState (store : StateStore) (conversationId : String)
    (isWaitingForResponse : Bool) (command : String) (now : Int) : StateStore :=
  let currentState := (lookupState store conversationId).getD (freshState now)
  (conversationId,
    ⟨isWaitingForResponse, command,
      currentState.messageCount + 1, now⟩) :: store

/-- `shouldRespondToMessage` of variant 1 (src/unnamed/part_001 lines
191-214): any message is admitted while waiting for a response, otherwise a
trigger keyword is required.  Returns the verdict and the store left behind by
the `getConversationState` side effect. -/
def shouldRespondToMessage1 (message : String) (conversationId : String)
    (store : StateStore) (now : Int) : Bool × StateStore :=
  let lowerMessage := jsTrim (jsLower message)
  let res := getConversationState store conversationId now
  if res.1.isWaitingForResponse then (true, res.2)
  else (hasAnyTrigger SQUABBLE_TRIGGERS1 lowerMessage, res.2)

/-- `shouldSendHelpHint` of variant 1. -/
def shouldSendHelpHint1 (message : String) : Bool :=
  let lowerMessage := jsTrim (jsLower message)
  (["bot", "agent", "ai", "help"].any (fun m => jsIncludes lowerMessage m))
    && !(hasAnyTrigger SQUABBLE_TRIGGERS1 lowerMessage)

/-- The `hasNewTrigger` test inside variant 1's `handleMessage` (no trim). -/
def hasNewTrigger1 (messageContent : String) : Bool :=
  hasAnyTrigger SQUABBLE_TRIGGERS1 (jsLower messageContent)

/-! ### Handler embeddings -/

/-- Observable effects of one handler run, in order:  a marker for the first
conversation-state read, a marker for the trigger-evaluator call, message
sends into the conversation, and agent invocations (thread key, text). -/
inductive Effect where
  | stateRead : Effect
  | trigEval : Effect
  | send : String → Effect
  | agentRun : String → String → Effect
deriving Repr, DecidableEq

/-- Result of one handler run over a store of type `σ`: the final store, the
effect trace, and whether an exception escaped the handler (which would
terminate the dispatch loop). -/
structure RunResult (σ : Type) where
  state : σ
  effects : List Effect
  escaped : Bool
deriving Repr, DecidableEq

/-- Oracle outcomes for the fallible external steps of one handler run. -/
structure Oracles where
  conversationFound : Bool
  initOk : Bool
  agentResponse : String
  hintSendOk : Bool
  betSendOk : Bool
  mainSendOk : Bool
  apologySendOk : Bool
  sentMessageId : String
deriving Repr, DecidableEq

/-- The generic apology sent from the catch block of every handler variant. -/
def apologyText : String :=
  "I encountered an error while processing your request. Please try again later."

/-- The help hint of variant 1. -/
def helpHintText1 : String :=
  "👋 Hi! I\x27m the Squabble game bot. Try using:\n" ++
    "• \x60/squabble help\x60 - Get game rules\n" ++
    "• \x60/squabble start\x60 - Create a new game\n" ++
    "• \x60/squabble leaderboard\x60 - View rankings\n" ++
    "• Or just say \x27start game\x27, \x27show leaderboard\x27, etc."

/-- The help hint of variant 2. -/
def helpHintText2 : String :=
  "👋 Hi! I\x27m the Squabble game agent. You asked for help! " ++
    "Try to invoke the agent with @squabble.base.eth or just @squabble\n"

/-- The bet prompt of variant 1. -/
def betPromptText : String :=
  "🎮 How much would you like to bet for this game? " ++
    "You can enter an amount or say \x27no bet\x27 if you prefer."

/-- A send followed, on failure, by the catch block's apology attempt:
appends the apology send and records an escape when the apology send itself
fails. -/
def finishSend (state : σ) (effects : List Effect) (text : String)
    (sendOk : Bool) (o : Oracles) : RunResult σ :=
  if sendOk then ⟨state, effects ++ [Effect.send text], false⟩
  else
    ⟨state, effects ++ [Effect.send text, Effect.send apologyText],
      !o.apologySendOk⟩

/-- The catch block reached with a resolved conversation handle: the apology
attempt itself. -/
def catchWithConversation (state : σ) (effects : List Effect) (o : Oracles) :
    RunResult σ :=
  ⟨state, effects ++ [Effect.send apologyText], !o.apologySendOk⟩

/-- The code of variant 1's `handleMessage` after the waiting-state block
(src/unnamed/part_001 lines 528-575): trigger evaluation, the help hint on
the ignore path, the bet prompt for a bare start command, and the agent call
with the raw message text otherwise. -/
def mainProcessing1 (msg : DecodedMessage) (messageContent : String)
    (store : StateStore) (now : Int) (o : Oracles) : RunResult StateStore :=
  let res := shouldRespondToMessage1 messageContent msg.conversationId store now
  if res.1 = false then
    if shouldSendHelpHint1 messageContent then
      finishSend res.2 [Effect.trigEval] helpHintText1 o.hintSendOk o
    else ⟨res.2, [Effect.trigEval], false⟩
  else
    let lowerMessage := jsLower messageContent
    if jsIncludes lowerMessage "/squabble start" && !(jsIncludes lowerMessage "bet") then
      let s2 := setConversationState res.2 msg.conversationId true "/squabble start" now
      finishSend s2 [Effect.trigEval] betPromptText o.betSendOk o
    else
      if o.initOk then
        let s2 := setConversationState res.2 msg.conversationId true messageContent now
        finishSend s2
          [Effect.trigEval, Effect.agentRun msg.senderInboxId messageContent]
          o.agentResponse o.mainSendOk o
      else catchWithConversation res.2 [Effect.trigEval] o

/-- Prefixes the marker of the initial conversation-state read. -/
def afterStateRead (r : RunResult StateStore) : RunResult StateStore :=
  ⟨r.state, Effect.stateRead :: r.effects, r.escaped⟩

/-- `handleMessage` of variant 1 (src/unnamed/part_001 lines 463-584):
self-authored messages are skipped first; the conversation is resolved; while
waiting for a response, a fresh trigger resets the waiting flag and the
message is reprocessed normally, any other message goes straight to the
agent; otherwise the main processing path runs.  Errors are caught and
answered with the apology when the conversation was resolved. -/
def handleMessage1 (msg : DecodedMessage) (botInboxId : String)
    (store : StateStore) (now : Int) (o : Oracles) : RunResult StateStore :=
  if jsLower msg.senderInboxId = jsLower botInboxId then ⟨store, [], false⟩
  else if o.conversationFound = false then ⟨store, [], false⟩
  else
    let messageContent := jsToString msg.content
    let res := getConversationState store msg.conversationId now
    if res.1.isWaitingForResponse then
      if hasNewTrigger1 messageContent then
        afterStateRead
          (mainProcessing1 msg messageContent
            (updateConversationState res.2 msg.conversationId false now) now o)
      else
        if o.initOk then
          let s2 := setConversationState res.2 msg.conversationId true messageContent now
          finishSend s2
            [Effect.stateRead, Effect.agentRun msg.senderInboxId messageContent]
            o.agentResponse o.mainSendOk o
        else catchWithConversation res.2 [Effect.stateRead] o
    else afterStateRead (mainProcessing1 msg messageContent res.2 now o)

/-- `handleMessage` of variant 2 (src/unnamed/part_002 lines 531-600):
self-authored messages are skipped first; the conversation is resolved; the
trigger evaluator decides; on the ignore path the help hint may be sent; on
the respond path the agent runs, the TOOL_HANDLED sentinel suppresses the
send, otherwise the response is sent and the agent message is tracked.
Errors are caught and answered with the apology when the conversation was
resolved. -/
def handleMessage2 (msg : DecodedMessage) (botInboxId : String)
    (recent : RecentStore) (now : Int) (o : Oracles) : RunResult RecentStore :=
  if jsLower msg.senderInboxId = jsLower botInboxId then ⟨recent, [], false⟩
  else if o.conversationFound = false then ⟨recent, [], false⟩
  else
    let messageContent := extractMessageContent msg
    if shouldRespondToMessage2 msg botInboxId recent now = false then
      if shouldSendHelpHint2 messageContent then
        finishSend recent [Effect.trigEval] helpHintText2 o.hintSendOk o
      else ⟨recent, [Effect.trigEval], false⟩
    else
      if o.initOk then
        let response := o.agentResponse
        if jsTrim response = "TOOL_HANDLED" then
          ⟨recent,
            [Effect.trigEval, Effect.agentRun msg.senderInboxId messageContent],
            false⟩
        else
          if o.mainSendOk then
            ⟨trackAgentMessage recent msg.conversationId o.sentMessageId now,
              [Effect.trigEval,
                Effect.agentRun msg.senderInboxId messageContent,
                Effect.send response],
              false⟩
          else
            catchWithConversation recent
              [Effect.trigEval,
                Effect.agentRun msg.senderInboxId messageContent,
                Effect.send response] o
      else catchWithConversation recent [Effect.trigEval] o

/-! ### Specification-ordered extraction (for the refinement claims)

`extractReplySpecOrder` follows the spec's stated priority order for reply
envelopes word for word: nested content fields, then the fallback pattern,
then the raw fallback, then the JSON-serialised reply payload as the last
resort.  `extractReplyAmendedOrder` is the order the code actually
implements. -/

/-- Spec-ordered reply extraction: stages (1)-(5) of the claim and then the
JSON-serialised reply payload, with no further stages. -/
def extractReplySpecOrder (message : DecodedMessage) : String :=
  match extractReplyContentField message.content with
  | some s => s
  | none =>
    match extractReplyFromFallback message.fallback with
    | some s => s
    | none => jsonStringify message.content

/-- Amended reply extraction order: the content fields, the fallback pattern,
the raw fallback, then the `parameters.content`/`parameters.text` fields,
then the empty string for null/undefined content, and only then the
JSON-serialised payload. -/
def extractReplyAmendedOrder (message : DecodedMessage) : String :=
  match extractReplyContentField message.content with
  | some s => s
  | none =>
    match extractReplyFromFallback message.fallback with
    | some s => s
    | none =>
      match extractReplyFromParams message.parameters with
      | some s => s
      | none =>
        if message.content.isNullOrUndefined then ""
        else jsonStringify message.content

/-! ### Concrete inputs for witnesses and counterexamples -/

/-- A malformed reply: null content, no fallback, no parameters. -/
def msgNullReply : DecodedMessage :=
  ⟨"m2", "alice", "c2", some "reply", JVal.null, JVal.undefined, JVal.undefined⟩

/-- A reply whose text lives only in the `parameters.content` field. -/
def msgParamsReply : DecodedMessage :=
  ⟨"m3", "alice", "c3", some "reply", JVal.null, JVal.undefined,
    JVal.obj [("content", JVal.str "hi")]⟩

/-- A reply carrying its text in the usual nested content field. -/
def msgNestedReply : DecodedMessage :=
  ⟨"m4", "alice", "c4", some "reply",
    JVal.obj [("content", JVal.str "yes"), ("reference", JVal.str "other")],
    JVal.undefined, JVal.undefined⟩

/-- A plain message carrying a variant 1 trigger. -/
def msgSlashTrigger : DecodedMessage :=
  ⟨"m5", "alice", "c5", none, JVal.str "/squabble hello", JVal.undefined, JVal.undefined⟩

/-- A plain message with text but no trigger keyword. -/
def msgPlainChat : DecodedMessage :=
  ⟨"m6", "alice", "c6", none, JVal.str "sounds good", JVal.undefined, JVal.undefined⟩

/-- A plain message carrying a variant 2 trigger. -/
def msgAtTrigger : DecodedMessage :=
  ⟨"m8", "alice", "c8", none, JVal.str "@squabble go", JVal.undefined, JVal.undefined⟩

/-- A message authored by the bot itself (case differs only in casing). -/
def msgFromBot : DecodedMessage :=
  ⟨"m7", "BotX", "c7", none, JVal.str "@squabble go", JVal.undefined, JVal.undefined⟩

/-- Oracle outcomes with every external step succeeding. -/
def oraclesAllOk : Oracles :=
  ⟨true, true, "Sure, let us play!", true, true, true, true, "sent-1"⟩

/-- Oracle outcomes where agent initialisation and the apology send both
fail. -/
def oraclesInitAndApologyFail : Oracles :=
  ⟨true, false, "Sure, let us play!", true, true, true, false, "sent-2"⟩

/-- Oracle outcomes where the agent answers with the TOOL_HANDLED sentinel
(surrounded by whitespace, exercising the trim). -/
def oraclesToolHandled : Oracles :=
  ⟨true, true, "  TOOL_HANDLED  ", true, true, true, true, "sent-3"⟩

/-- A conversation-state store whose single conversation is waiting for a
response. -/
def storeWaiting : StateStore :=
  [("c5", ⟨true, "/squabble start", 1, 0⟩)]

/-- Oracle outcomes where agent initialisation fails but the apology send
succeeds. -/
def oraclesInitFail : Oracles :=
  ⟨true, false, "Sure, let us play!", true, true, true, true, "sent-4"⟩

/-! ### Supporting lemmas about the string primitives -/

/-- `List.isPrefixOf` agrees with the existential description of prefixes. -/
theorem isPrefixOf_iff_exists :
    ∀ (a b : List Char), a.isPrefixOf b = true ↔ ∃ r, b = a ++ r := by
  intro a
  induction a with
  | nil =>
    intro b
    simp [List.isPrefixOf]
  | cons x xs ih =>
    intro b
    cases b with
    | nil => simp [List.isPrefixOf]
    | cons y ys =>
      simp only [List.isPrefixOf, Bool.and_eq_true, beq_iff_eq, ih ys,
        List.cons_append, List.cons.injEq]
      constructor
      · rintro ⟨hxy, r, hr⟩
        exact ⟨r, hxy.symm, hr⟩
      · rintro ⟨r, hxy, hr⟩
        exact ⟨hxy.symm, r, hr⟩

/-- `containsSub` agrees with the existential description of contiguous
occurrence. -/
theorem containsSub_iff_exists (n : List Char) :
    ∀ h, containsSub n h = true ↔ ∃ u v, h = u ++ n ++ v := by
  intro h
  induction h with
  | nil =>
    simp only [containsSub, List.isEmpty_iff]
    constructor
    · intro hn
      exact ⟨[], [], by simp [hn]⟩
    · rintro ⟨u, v, huv⟩
      rcases List.append_eq_nil.mp (List.append_eq_nil.mp huv.symm).1 with ⟨_, h2⟩
      exact h2
  | cons c t ih =>
    simp only [containsSub, Bool.or_eq_true, isPrefixOf_iff_exists, ih]
    constructor
    · rintro (⟨r, hr⟩ | ⟨u, v, huv⟩)
      · exact ⟨[], r, by simp [hr]⟩
      · exact ⟨c :: u, v, by simp [huv]⟩
    · rintro ⟨u, v, huv⟩
      cases u with
      | nil =>
        left
        exact ⟨v, by simpa using huv⟩
      | cons a u' =>
        right
        simp only [List.cons_append, List.cons.injEq] at huv
        exact ⟨u', v, huv.2⟩

/-- Occurrence in a reversed list is occurrence of the reversed pattern. -/
theorem containsSub_reverse (n l : List Char) :
    containsSub n l.reverse = containsSub n.reverse l := by
  rw [Bool.eq_iff_iff, containsSub_iff_exists, containsSub_iff_exists]
  constructor
  · rintro ⟨u, v, huv⟩
    refine ⟨v.reverse, u.reverse, ?_⟩
    have hl : l = (u ++ n ++ v).reverse := by
      rw [← huv, List.reverse_reverse]
    simp [hl, List.reverse_append, List.append_assoc]
  · rintro ⟨u, v, huv⟩
    refine ⟨v.reverse, u.reverse, ?_⟩
    simp [huv, List.reverse_append, List.append_assoc]

/-- Dropping a leading run of characters that cannot begin the (nonempty)
pattern does not change whether the pattern occurs. -/
theorem containsSub_dropWhile (p : Char → Bool) (n : List Char)
    (hn : n ≠ []) (hw : ∀ c ∈ n, p c = false) :
    ∀ l, containsSub n (l.dropWhile p) = containsSub n l := by
  intro l
  induction l with
  | nil => simp
  | cons c t ih =>
    rw [List.dropWhile_cons]
    by_cases hp : p c = true
    · rw [if_pos hp, ih]
      have hpre : n.isPrefixOf (c :: t) = false := by
        cases n with
        | nil => exact absurd rfl hn
        | cons x xs =>
          by_contra hx
          have hx' := isPrefixOf_iff_exists (x :: xs) (c :: t)
          rw [Bool.not_eq_false] at hx
          rcases hx'.mp hx with ⟨r, hr⟩
          simp only [List.cons_append, List.cons.injEq] at hr
          have : p x = false := hw x (List.mem_cons_self x xs)
          rw [← hr.1] at this
          rw [this] at hp
          exact Bool.false_ne_true hp
      show containsSub n t = containsSub n (c :: t)
      simp [containsSub, hpre]
    · rw [if_neg hp]

/-- Trimming does not change whether a nonempty whitespace-free pattern
occurs. -/
theorem containsSub_trimChars (n : List Char) (hn : n ≠ [])
    (hw : ∀ c ∈ n, isJsWs c = false) (l : List Char) :
    containsSub n (trimChars l) = containsSub n l := by
  have hn' : n.reverse ≠ [] := by
    simpa using hn
  have hw' : ∀ c ∈ n.reverse, isJsWs c = false := by
    intro c hc
    exact hw c (List.mem_reverse.mp hc)
  unfold trimChars
  rw [containsSub_reverse,
    containsSub_dropWhile isJsWs n.reverse hn' hw',
    ← containsSub_reverse, List.reverse_reverse,
    containsSub_dropWhile isJsWs n hn hw]

/-- The JavaScript `includes` ignores trimming when the pattern is nonempty
and whitespace-free. -/
theorem jsIncludes_jsTrim (s t : String) (hn : t.data ≠ [])
    (hw : ∀ c ∈ t.data, isJsWs c = false) :
    jsIncludes (jsTrim s) t = jsIncludes s t :=
  containsSub_trimChars t.data hn hw s.data

/-- Variant 1's trigger test is insensitive to trimming the text. -/
theorem hasAnyTrigger1_trim (s : String) :
    hasAnyTrigger SQUABBLE_TRIGGERS1 (jsTrim s) =
      hasAnyTrigger SQUABBLE_TRIGGERS1 s := by
  show (jsIncludes (jsTrim s) (jsLower "/squabble") || false) =
    (jsIncludes s (jsLower "/squabble") || false)
  rw [jsIncludes_jsTrim s (jsLower "/squabble") (by decide) (by decide)]

/-- Characterisation of the state returned by `getConversationState`. -/
theorem getConversationState_fst_eq (store : StateStore)
    (conversationId : String) (now : Int) :
    (getConversationState store conversationId now).1 =
      match lookupState store conversationId with
      | none => freshState now
      | some st =>
        if now - st.lastUpdate > STATE_TIMEOUT then freshState now
        else if st.messageCount ≥ MAX_CONTEXT_MESSAGES then freshState now
        else st := by
  unfold getConversationState
  cases lookupState store conversationId with
  | none => rfl
  | some st =>
    by_cases h1 : now - st.lastUpdate > STATE_TIMEOUT
    · simp [h1]
    · by_cases h2 : st.messageCount ≥ MAX_CONTEXT_MESSAGES
      · simp [h1, h2]
      · simp [h1, h2]

/-- Lookup finds the entry just pushed for the same conversation. -/
theorem lookupState_cons_self (store : StateStore) (conversationId : String)
    (st : ConversationState) :
    lookupState ((conversationId, st) :: store) conversationId = some st := by
  unfold lookupState
  rw [List.find?_cons_of_pos _ (by simp)]
  rfl

/-! ### Claim C1 -/

/-- C1: `getConversationState` returns the fresh default state
(`isWaitingForResponse = false`, `lastCommand = ""`, `messageCount = 0`,
`lastUpdate = now`) exactly when the stored state is absent, or
`now - lastUpdate` exceeds `STATE_TIMEOUT`, or `messageCount` has reached
`MAX_CONTEXT_MESSAGES`; in every other case it returns the stored state
unchanged, and in all cases the caller observes a non-expired state. -/
theorem c1_getConversationState_reset (store : StateStore)
    (conversationId : String) (now : Int) :
    ((lookupState store conversationId = none ∨
        (∃ st, lookupState store conversationId = some st ∧
          (now - st.lastUpdate > STATE_TIMEOUT ∨
            st.messageCount ≥ MAX_CONTEXT_MESSAGES))) →
      (getConversationState store conversationId now).1 = freshState now)
    ∧ (∀ st, lookupState store conversationId = some st →
        now - st.lastUpdate ≤ STATE_TIMEOUT →
        st.messageCount < MAX_CONTEXT_MESSAGES →
        (getConversationState store conversationId now).1 = st)
    ∧ now - ((getConversationState store conversationId now).1).lastUpdate ≤
        STATE_TIMEOUT
    ∧ ((getConversationState store conversationId now).1).messageCount <
        MAX_CONTEXT_MESSAGES := by
  have hfresh1 : now - (freshState now).lastUpdate ≤ STATE_TIMEOUT := by
    simp [freshState, STATE_TIMEOUT]
  have hfresh2 : (freshState now).messageCount < MAX_CONTEXT_MESSAGES := by
    simp [freshState, MAX_CONTEXT_MESSAGES]
  have heq := getConversationState_fst_eq store conversationId now
  cases hl : lookupState store conversationId with
  | none =>
    have heq0 : (getConversationState store conversationId now).1 =
        freshState now := by
      rw [heq, hl]
    refine ⟨fun _ => heq0, ?_, ?_, ?_⟩
    · intro st hst
      cases hst
    · rw [heq0]
      exact hfresh1
    · rw [heq0]
      exact hfresh2
  | some st =>
    have heq2 : (getConversationState store conversationId now).1 =
        (if now - st.lastUpdate > STATE_TIMEOUT then freshState now
         else if st.messageCount ≥ MAX_CONTEXT_MESSAGES then freshState now
         else st) := by
      rw [heq, hl]
    by_cases h1 : now - st.lastUpdate > STATE_TIMEOUT
    · rw [if_pos h1] at heq2
      refine ⟨fun _ => heq2, ?_, ?_, ?_⟩
      · intro st' hst' h2 _
        cases hst'
        exact absurd h1 (not_lt.mpr h2)
      · rw [heq2]
        exact hfresh1
      · rw [heq2]
        exact hfresh2
    · rw [if_neg h1] at heq2
      by_cases h2 : st.messageCount ≥ MAX_CONTEXT_MESSAGES
      · rw [if_pos h2] at heq2
        refine ⟨fun _ => heq2, ?_, ?_, ?_⟩
        · intro st' hst' _ h3
          cases hst'
          exact absurd h2 (not_le.mpr h3)
        · rw [heq2]
          exact hfresh1
        · rw [heq2]
          exact hfresh2
      · rw [if_neg h2] at heq2
        refine ⟨?_, ?_, ?_, ?_⟩
        · rintro (habs | ⟨st', hst', habs⟩)
          · cases habs
          · cases hst'
            rcases habs with ha | ha
            · exact absurd ha h1
            · exact absurd ha h2
        · intro st' hst' _ _
          cases hst'
          exact heq2
        · rw [heq2]
          exact not_lt.mp h1
        · rw [heq2]
          exact not_le.mp h2

/-- C1 witness: a stored, non-expired state is returned unchanged. -/
theorem c1_witness :
    (getConversationState [("w", ⟨true, "go", 2, 0⟩)] "w" 10).1 =
      ⟨true, "go", 2, 0⟩ :=
  (c1_getConversationState_reset [("w", ⟨true, "go", 2, 0⟩)] "w" 10).2.1
    ⟨true, "go", 2, 0⟩ (by decide) (by decide) (by decide)

/-! ### Claim C2 -/

/-- C2: `extractMessageContent` is total — it returns a string for every
decoded envelope (it is a total Lean function, so it cannot raise), and for
a reply envelope whose content is null/undefined with no usable fallback and
no usable parameters the worst case is the empty string. -/
theorem c2_extract_total (m : DecodedMessage) :
    (∃ s : String, extractMessageContent m = s)
    ∧ (m.contentTypeId = some "reply" →
        m.content.isNullOrUndefined = true →
        extractReplyFromFallback m.fallback = none →
        extractReplyFromParams m.parameters = none →
        extractMessageContent m = "") := by
  refine ⟨⟨extractMessageContent m, rfl⟩, ?_⟩
  intro hr hc hf hp
  have h1 : extractReplyContentField m.content = none := by
    cases hc2 : m.content with
    | null => simp [extractReplyContentField, JVal.truthy]
    | undefined => simp [extractReplyContentField, JVal.truthy]
    | str s =>
      rw [hc2] at hc
      simp [JVal.isNullOrUndefined] at hc
    | num n =>
      rw [hc2] at hc
      simp [JVal.isNullOrUndefined] at hc
    | bool b =>
      rw [hc2] at hc
      simp [JVal.isNullOrUndefined] at hc
    | obj fs =>
      rw [hc2] at hc
      simp [JVal.isNullOrUndefined] at hc
  unfold extractMessageContent
  rw [if_pos hr]
  simp [h1, hf, hp, hc]

/-- C2 witness: a reply with null content and missing fallback extracts to
the empty string. -/
theorem c2_witness : extractMessageContent msgNullReply = "" :=
  (c2_extract_total msgNullReply).2 rfl rfl rfl rfl

/-! ### Claim C3 -/

/-- C3 counterexample: a reply whose text lives only in the
`parameters.content` field.  The spec's six-stage priority order would fall
through to the JSON-serialised payload ("null"), but the code returns the
parameters text, so the stated order is not the code's order. -/
theorem c3_counterexample :
    msgParamsReply.contentTypeId = some "reply" ∧
      extractMessageContent msgParamsReply ≠
        extractReplySpecOrder msgParamsReply := by
  constructor
  · rfl
  · decide

/-- C3 amended: for every reply envelope, `extractMessageContent` follows
the amended priority order — nested content fields, fallback pattern, raw
fallback, then `parameters.content`, then `parameters.text`, then the empty
string for null/undefined content, and the JSON-serialised payload only as
the very last resort. -/
theorem c3_amended_order (m : DecodedMessage)
    (hr : m.contentTypeId = some "reply") :
    extractMessageContent m = extractReplyAmendedOrder m := by
  unfold extractMessageContent extractReplyAmendedOrder
  rw [if_pos hr]

/-- C3 witness: the amended order agrees with the code on the
parameters-only reply. -/
theorem c3_witness :
    extractMessageContent msgParamsReply =
      extractReplyAmendedOrder msgParamsReply :=
  c3_amended_order msgParamsReply rfl

/-! ### Claim C4 -/

/-- C4 counterexample: an empty reply (null content, no fallback) is a reply
to the agent, yet with no recent agent message in the conversation the
evaluator answers `false`, not `true`. -/
theorem c4_counterexample :
    isReplyToAgent msgNullReply "agent0" = true ∧
      shouldRespondToMessage2 msgNullReply "agent0" [] 0 = false := by
  constructor
  · decide
  · decide

/-- C4 amended: a reply to the agent whose extracted text is nonempty after
trimming always yields `respond = true`; when the extracted text trims to
empty, the evaluator instead returns the context-window check. -/
theorem c4_amended (m : DecodedMessage) (agentInboxId : String)
    (recent : RecentStore) (now : Int)
    (hr : isReplyToAgent m agentInboxId = true) :
    (jsTrim (extractMessageContent m) ≠ "" →
      shouldRespondToMessage2 m agentInboxId recent now = true)
    ∧ (jsTrim (extractMessageContent m) = "" →
      shouldRespondToMessage2 m agentInboxId recent now =
        isWithinContextWindow recent m.conversationId now) := by
  have hrt : m.contentTypeId = some "reply" := by
    unfold isReplyToAgent at hr
    exact of_decide_eq_true hr
  constructor
  · intro hne
    simp [shouldRespondToMessage2, hne, hr]
  · intro he
    simp [shouldRespondToMessage2, he, hrt]

/-- C4 witness: a reply with real text is always admitted. -/
theorem c4_witness :
    shouldRespondToMessage2 msgNestedReply "agent0" [] 0 = true :=
  (c4_amended msgNestedReply "agent0" [] 0 (by decide)).1 (by decide)

/-! ### Claim C5 -/

/-- After `updateConversationState` with `isWaitingForResponse = false`, the
next `getConversationState` at the same clock observes a non-waiting state
(whether or not the turn-count reset fires). -/
theorem waiting_false_after_update (store : StateStore) (conversationId : String)
    (now : Int) :
    ((getConversationState
        (updateConversationState store conversationId false now)
        conversationId now).1).isWaitingForResponse = false := by
  unfold updateConversationState
  generalize (lookupState store conversationId).getD (freshState now) = cur
  rw [getConversationState_fst_eq, lookupState_cons_self]
  show ((if now - now > STATE_TIMEOUT then freshState now
    else if cur.messageCount + 1 ≥ MAX_CONTEXT_MESSAGES then freshState now
    else ⟨false, cur.lastCommand, cur.messageCount + 1, now⟩)).isWaitingForResponse
    = false
  have h1 : ¬ now - now > STATE_TIMEOUT := by
    simp only [STATE_TIMEOUT]
    omega
  rw [if_neg h1]
  by_cases h2 : cur.messageCount + 1 ≥ MAX_CONTEXT_MESSAGES
  · rw [if_pos h2]
    rfl
  · rw [if_neg h2]

/-- On the empty store `getConversationState` creates the fresh,
non-waiting state. -/
theorem waiting_false_on_empty (conversationId : String) (now : Int) :
    ((getConversationState [] conversationId now).1).isWaitingForResponse =
      false :=
  rfl

/-- When the observed state is not waiting, variant 1's trigger evaluator
verdict is exactly the (untrimmed) trigger test of the handler. -/
theorem shouldRespond1_not_waiting (message conversationId : String)
    (store : StateStore) (now : Int)
    (hnw : ((getConversationState store conversationId now).1).isWaitingForResponse
      = false) :
    (shouldRespondToMessage1 message conversationId store now).1 =
      hasNewTrigger1 message := by
  unfold shouldRespondToMessage1
  simp only [hnw, Bool.false_eq_true, if_false]
  exact hasAnyTrigger1_trim (jsLower message)

/-- C5: while the conversation is waiting for a response, a message carrying
a trigger keyword makes the handler first reset the waiting flag
(`updateConversationState _ _ false`) and then rerun the normal processing
path; the verdict recomputed on the reset store is `true`, the same verdict
a first-time trigger message gets on a fresh store.  A waiting-state message
without a trigger keyword is forwarded verbatim to the agent. -/
theorem c5_waiting_reset (msg : DecodedMessage) (botInboxId : String)
    (store : StateStore) (now : Int) (o : Oracles)
    (hSelf : ¬ jsLower msg.senderInboxId = jsLower botInboxId)
    (hConv : o.conversationFound = true)
    (hWait : ((getConversationState store msg.conversationId now).1).isWaitingForResponse
      = true) :
    (hasNewTrigger1 (jsToString msg.content) = true →
      handleMessage1 msg botInboxId store now o =
        afterStateRead (mainProcessing1 msg (jsToString msg.content)
          (updateConversationState
            (getConversationState store msg.conversationId now).2
            msg.conversationId false now) now o)
      ∧ (shouldRespondToMessage1 (jsToString msg.content) msg.conversationId
          (updateConversationState
            (getConversationState store msg.conversationId now).2
            msg.conversationId false now) now).1 = true
      ∧ ∀ now2 : Int,
          (shouldRespondToMessage1 (jsToString msg.content)
            msg.conversationId [] now2).1 = true)
    ∧ (hasNewTrigger1 (jsToString msg.content) = false → o.initOk = true →
        Effect.agentRun msg.senderInboxId (jsToString msg.content) ∈
          (handleMessage1 msg botInboxId store now o).effects) := by
  constructor
  · intro hTrig
    refine ⟨?_, ?_, ?_⟩
    · simp only [handleMessage1, if_neg hSelf, hConv, hWait, hTrig]
      simp
    · rw [shouldRespond1_not_waiting _ _ _ _
        (waiting_false_after_update
          (getConversationState store msg.conversationId now).2
          msg.conversationId now)]
      exact hTrig
    · intro now2
      rw [shouldRespond1_not_waiting _ _ _ _
        (waiting_false_on_empty msg.conversationId now2)]
      exact hTrig
  · intro hTrig hInit
    simp only [handleMessage1, if_neg hSelf, hConv, hWait, hTrig, hInit,
      finishSend, catchWithConversation]
    cases hM : o.mainSendOk <;> simp [hM]

/-- C5 witness: a waiting conversation, a fresh trigger message, and the
first-time verdict at an arbitrary later clock. -/
theorem c5_witness :
    (shouldRespondToMessage1 "/squabble hello" "c5" [] 7).1 = true :=
  (((c5_waiting_reset msgSlashTrigger "bot0" storeWaiting 1 oraclesAllOk
    (by decide) rfl (by decide)).1 (by decide)).2.2) 7

/-! ### Claim C6 -/

/-- C6: a plain (non-reply) message with non-empty trimmed text and no
trigger keyword is admitted exactly when it arrives within
`CONTEXT_WINDOW_MS` of the bot's last tracked message in the conversation:
inside the window the verdict is `true`, after the window has elapsed it is
`false`. -/
theorem c6_context_window (m : DecodedMessage) (agentInboxId : String)
    (recent : RecentStore) (now t0 : Int) (messageId : String)
    (hNotReply : m.contentTypeId ≠ some "reply")
    (hNE : jsTrim (extractMessageContent m) ≠ "")
    (hTrig : hasAnyTrigger SQUABBLE_TRIGGERS2
      (jsTrim (jsLower (extractMessageContent m))) = false)
    (hRec : lookupRecent recent m.conversationId = some ⟨t0, messageId⟩) :
    (now - t0 ≤ CONTEXT_WINDOW_MS →
      shouldRespondToMessage2 m agentInboxId recent now = true)
    ∧ (now - t0 > CONTEXT_WINDOW_MS →
      shouldRespondToMessage2 m agentInboxId recent now = false) := by
  have hnr : isReplyToAgent m agentInboxId = false := by
    unfold isReplyToAgent
    exact decide_eq_false hNotReply
  constructor
  · intro hin
    have hw : isWithinContextWindow recent m.conversationId now = true := by
      unfold isWithinContextWindow
      rw [hRec]
      exact decide_eq_true hin
    simp [shouldRespondToMessage2, hNE, hnr, hw]
  · intro hout
    have hw : isWithinContextWindow recent m.conversationId now = false := by
      unfold isWithinContextWindow
      rw [hRec]
      exact decide_eq_false (not_le.mpr hout)
    simp [shouldRespondToMessage2, hNE, hnr, hw, hTrig]

/-- C6 witness: one minute after the bot's message the plain chat message is
admitted through the context window. -/
theorem c6_witness :
    shouldRespondToMessage2 msgPlainChat "agent0" [("c6", ⟨0, "b1"⟩)] 60000 =
      true :=
  (c6_context_window msgPlainChat "agent0" [("c6", ⟨0, "b1"⟩)] 60000 0 "b1"
    (by decide) (by decide) (by decide) (by decide)).1 (by decide)

/-! ### Claim C7 -/

/-- C7: a message whose sender equals the bot's own identifier under
case-insensitive comparison makes both handler variants return immediately:
the store is untouched and the effect trace is empty — no state read, no
trigger evaluation, no send. -/
theorem c7_self_skip (msg : DecodedMessage) (botInboxId : String)
    (store : StateStore) (recent : RecentStore) (now : Int) (o o2 : Oracles)
    (hSelf : jsLower msg.senderInboxId = jsLower botInboxId) :
    handleMessage2 msg botInboxId recent now o = ⟨recent, [], false⟩
    ∧ handleMessage1 msg botInboxId store now o2 = ⟨store, [], false⟩ := by
  constructor
  · unfold handleMessage2
    rw [if_pos hSelf]
  · unfold handleMessage1
    rw [if_pos hSelf]

/-- C7 witness: a bot-authored message (differing only in casing) is skipped
by the variant 2 handler. -/
theorem c7_witness :
    handleMessage2 msgFromBot "botx" [] 0 oraclesAllOk = ⟨[], [], false⟩ :=
  (c7_self_skip msgFromBot "botx" [] [] 0 oraclesAllOk oraclesAllOk
    (by decide)).1

/-! ### Claim C8 -/

/-- C8 counterexample: an admitted message whose agent initialisation fails
and whose apology send also fails.  The apology-send error escapes the
handler (`escaped = true`), so the dispatch loop does not continue — the
claim's unconditional "loop continues" is false. -/
theorem c8_counterexample :
    (handleMessage2 msgAtTrigger "bot0" [] 0 oraclesInitAndApologyFail).escaped
      = true := by
  decide

/-- C8 amended: provided the apology send itself succeeds, every error in
the enumerated per-message steps is caught inside the handler (nothing
escapes), the fixed generic apology is sent only when the conversation
handle was resolved, and it is sent whenever the conversation was resolved
and agent initialisation or the response send failed. -/
theorem c8_amended (msg : DecodedMessage) (botInboxId : String)
    (recent : RecentStore) (now : Int) (o : Oracles)
    (hApol : o.apologySendOk = true) :
    (handleMessage2 msg botInboxId recent now o).escaped = false
    ∧ (Effect.send apologyText ∈
        (handleMessage2 msg botInboxId recent now o).effects →
        o.conversationFound = true)
    ∧ (¬ jsLower msg.senderInboxId = jsLower botInboxId →
        o.conversationFound = true →
        shouldRespondToMessage2 msg botInboxId recent now = true →
        o.initOk = false →
        Effect.send apologyText ∈
          (handleMessage2 msg botInboxId recent now o).effects)
    ∧ (¬ jsLower msg.senderInboxId = jsLower botInboxId →
        o.conversationFound = true →
        shouldRespondToMessage2 msg botInboxId recent now = true →
        o.initOk = true → jsTrim o.agentResponse ≠ "TOOL_HANDLED" →
        o.mainSendOk = false →
        Effect.send apologyText ∈
          (handleMessage2 msg botInboxId recent now o).effects) := by
  refine ⟨?_, ?_, ?_, ?_⟩
  · simp only [handleMessage2, finishSend, catchWithConversation, hApol,
      Bool.not_true]
    split_ifs <;> rfl
  · intro hmem
    by_cases hC : o.conversationFound = true
    · exact hC
    · exfalso
      have hCf : o.conversationFound = false := by
        cases hcf : o.conversationFound
        · rfl
        · exact absurd hcf hC
      have heff : (handleMessage2 msg botInboxId recent now o).effects = [] := by
        simp only [handleMessage2, hCf]
        split_ifs <;> rfl
      rw [heff] at hmem
      exact absurd hmem (List.not_mem_nil _)
  · intro hS hC hR hI
    simp only [handleMessage2, catchWithConversation, if_neg hS]
    rw [if_neg (show ¬ o.conversationFound = false by simp [hC])]
    rw [if_neg (show ¬ shouldRespondToMessage2 msg botInboxId recent now = false
      by simp [hR])]
    rw [if_neg (show ¬ o.initOk = true by simp [hI])]
    simp
  · intro hS hC hR hI hT hM
    simp only [handleMessage2, catchWithConversation, if_neg hS]
    rw [if_neg (show ¬ o.conversationFound = false by simp [hC])]
    rw [if_neg (show ¬ shouldRespondToMessage2 msg botInboxId recent now = false
      by simp [hR])]
    rw [if_pos (show o.initOk = true from hI)]
    rw [if_neg hT]
    rw [if_neg (show ¬ o.mainSendOk = true by simp [hM])]
    simp

/-- C8 witness: with the apology send succeeding, a failed agent
initialisation after a resolved conversation yields the apology in the
trace. -/
theorem c8_witness :
    Effect.send apologyText ∈
      (handleMessage2 msgAtTrigger "bot0" [] 0 oraclesInitFail).effects :=
  (c8_amended msgAtTrigger "bot0" [] 0 oraclesInitFail rfl).2.2.1
    (by decide) rfl (by decide) rfl

/-! ### Claim C9 -/

/-- C9: for an admitted message with a successfully initialised agent, a
response that trims to the TOOL_HANDLED sentinel is not sent and leaves the
`recentAgentMessages` tracking untouched; any other response is sent, and on
send success the tracking is updated with the sent message id and the
current time. -/
theorem c9_tool_handled (msg : DecodedMessage) (botInboxId : String)
    (recent : RecentStore) (now : Int) (o : Oracles)
    (hS : ¬ jsLower msg.senderInboxId = jsLower botInboxId)
    (hC : o.conversationFound = true)
    (hR : shouldRespondToMessage2 msg botInboxId recent now = true)
    (hI : o.initOk = true) :
    (jsTrim o.agentResponse = "TOOL_HANDLED" →
      (handleMessage2 msg botInboxId recent now o).state = recent
      ∧ ∀ t, Effect.send t ∉ (handleMessage2 msg botInboxId recent now o).effects)
    ∧ (jsTrim o.agentResponse ≠ "TOOL_HANDLED" →
      Effect.send o.agentResponse ∈
        (handleMessage2 msg botInboxId recent now o).effects
      ∧ (o.mainSendOk = true →
          (handleMessage2 msg botInboxId recent now o).state =
            trackAgentMessage recent msg.conversationId o.sentMessageId now)) := by
  have hred : handleMessage2 msg botInboxId recent now o =
      (if jsTrim o.agentResponse = "TOOL_HANDLED" then
        ⟨recent,
          [Effect.trigEval,
            Effect.agentRun msg.senderInboxId (extractMessageContent msg)],
          false⟩
      else
        if o.mainSendOk then
          ⟨trackAgentMessage recent msg.conversationId o.sentMessageId now,
            [Effect.trigEval,
              Effect.agentRun msg.senderInboxId (extractMessageContent msg),
              Effect.send o.agentResponse],
            false⟩
        else
          catchWithConversation recent
            [Effect.trigEval,
              Effect.agentRun msg.senderInboxId (extractMessageContent msg),
              Effect.send o.agentResponse] o) := by
    simp only [handleMessage2, if_neg hS]
    rw [if_neg (show ¬ o.conversationFound = false by simp [hC])]
    rw [if_neg (show ¬ shouldRespondToMessage2 msg botInboxId recent now = false
      by simp [hR])]
    rw [if_pos (show o.initOk = true from hI)]
  constructor
  · intro hT
    rw [hred, if_pos hT]
    refine ⟨rfl, ?_⟩
    intro t
    simp
  · intro hT
    rw [hred, if_neg hT]
    cases hM : o.mainSendOk
    · constructor
      · simp [catchWithConversation]
      · intro habs
        cases habs
    · constructor
      · simp
      · intro _
        rfl

/-- C9 witness: a sentinel response (with surrounding whitespace) leaves the
tracking store empty. -/
theorem c9_witness :
    (handleMessage2 msgAtTrigger "bot0" [] 0 oraclesToolHandled).state =
      ([] : RecentStore) :=
  ((c9_tool_handled msgAtTrigger "bot0" [] 0 oraclesToolHandled
    (by decide) rfl (by decide) rfl).1 (by decide)).1

/-! ### Claim C10 -/

/-- C10 (implicit): `isReplyToAgent` answers `true` exactly when the
message's content type id is "reply"; the verdict is independent of the
`agentInboxId` argument and of every other field of the message — in
particular of which earlier message the reply references — so a reply to any
participant's message is classified as a reply to the agent. -/
theorem c10_isReplyToAgent_shape (m m2 : DecodedMessage) (a a2 : String) :
    (isReplyToAgent m a = true ↔ m.contentTypeId = some "reply")
    ∧ (m.contentTypeId = m2.contentTypeId →
        isReplyToAgent m a = isReplyToAgent m2 a2) := by
  constructor
  · simp [isReplyToAgent]
  · intro h
    unfold isReplyToAgent
    rw [h]

/-- C10 witness: a reply referencing another participant's message counts as
a reply to the agent, whatever inbox id is supplied. -/
theorem c10_witness :
    isReplyToAgent msgNestedReply "anyone" = true ∧
      isReplyToAgent msgNestedReply "anyone" =
        isReplyToAgent msgNestedReply "someone-else" :=
  ⟨(c10_isReplyToAgent_shape msgNestedReply msgNestedReply "anyone"
      "someone-else").1.mpr rfl,
    (c10_isReplyToAgent_shape msgNestedReply msgNestedReply "anyone"
      "someone-else").2 rfl⟩

end Squabble
